import Mathlib

/-!
Verification of the CashDeals bot's business logic against its specification.

The Python sources are shallowly embedded as executable Lean definitions:
spreadsheet cell values are `String`s (as returned by `get_all_values`) or,
where Python lists hold heterogeneous values (audit-log rows built by
`CashFlowEvent.to_row`), an explicit `Cell` type; Python `float` amounts are
idealised as exact rationals `ℚ` (no claim under scrutiny depends on binary
rounding, infinities or NaN); `datetime` values with whole-second precision
are a record of calendar fields, ordered through a proleptic-Gregorian
second count, matching `datetime` comparison and `timedelta` arithmetic.
Functions that Python makes fallible through exceptions return `Option`.
-/

namespace CashDeals

/-! ## Basic Python string helpers -/

/-- Model of Python `str.strip()` on a character list: drop whitespace from
both ends.  (Lean's `Char.isWhitespace` covers the space, tab, CR and LF
characters; the exotic Unicode whitespace accepted by Python does not occur
in any value this development evaluates.) -/
def stripWS (cs : List Char) : List Char :=
  ((cs.dropWhile Char.isWhitespace).reverse.dropWhile Char.isWhitespace).reverse

/-- Model of Python `str.strip()`. -/
def pyStrip (s : String) : String :=
  String.mk (stripWS s.toList)

/-- Model of Python `str.lower()` for one character, covering the ASCII and
Cyrillic ranges that occur in this system's token sets ("Да", "Нет",
"Не получали", role names, …). -/
def pyLowerChar (c : Char) : Char :=
  if 'A' ≤ c ∧ c ≤ 'Z' then Char.ofNat (c.toNat + 32)
  else if 0x410 ≤ c.toNat ∧ c.toNat ≤ 0x42F then Char.ofNat (c.toNat + 32)
  else if c.toNat = 0x401 then Char.ofNat 0x451
  else c

/-- Model of Python `str.lower()`. -/
def pyLower (s : String) : String :=
  String.mk (s.toList.map pyLowerChar)

/-- Model of Python `str.replace(old, new)` for a one-character pattern —
the only pattern shape the source ever uses (`","` → `"."` and `" "` →
`""`): every occurrence of the character is replaced. -/
def replaceChar (old : Char) (new : List Char) : List Char → List Char
  | [] => []
  | c :: rest =>
    if c = old then new ++ replaceChar old new rest
    else c :: replaceChar old new rest

/-- Python `s.replace(old, new)` with a one-character `old`. -/
def pyReplace1 (s : String) (old : Char) (new : String) : String :=
  String.mk (replaceChar old new.toList s.toList)

/-- Numeric value of a digit character. -/
def dVal (c : Char) : Nat := c.toNat - 48

/-- The character for a decimal digit (`n` is reduced mod 10). -/
def digitChar (n : Nat) : Char := Char.ofNat (48 + n % 10)

/-- Value of a list of decimal digit characters, most significant first. -/
def digitsVal (cs : List Char) : Nat :=
  cs.foldl (fun n c => 10 * n + dVal c) 0

/-! ## Model of Python `float(str)` for finite decimal literals

`pyFloat` accepts exactly the finite decimal forms Python's `float`
constructor accepts — optional surrounding whitespace, an optional sign,
digits with at most one decimal point (at least one digit overall), an
optional exponent part, and underscores that must sit between two digits —
and yields the exact rational value of the literal.  The special literals
`inf`/`nan` and Unicode-digit forms are outside the model (treated as
unparseable); no value in this development produces them. -/

/-- Underscore placement check of Python numeric literals: every `_` must be
directly between two digits.  `prev` is the character preceding the current
position, if any. -/
def usOK : Option Char → List Char → Bool
  | _, [] => true
  | prev, '_' :: rest =>
    (match prev with | some p => p.isDigit | none => false) &&
    (match rest with | r :: _ => r.isDigit | [] => false) &&
    usOK (some '_') rest
  | _, c :: rest => usOK (some c) rest

/-- Strip one leading sign; returns (isNegative, rest). -/
def takeSign : List Char → Bool × List Char
  | '-' :: r => (true, r)
  | '+' :: r => (false, r)
  | l => (false, l)

/-- Split at the first exponent marker `e`/`E`, if any. -/
def splitOnExp : List Char → List Char × Option (List Char)
  | [] => ([], none)
  | c :: r =>
    if c = 'e' ∨ c = 'E' then ([], some r)
    else
      let p := splitOnExp r
      (c :: p.1, p.2)

/-- Split a mantissa at its decimal point: `none` if more than one point,
otherwise the digits before the point and (when a point is present) after. -/
def splitOnDot : List Char → Option (List Char × Option (List Char))
  | [] => some ([], none)
  | '.' :: r => if r.any (· = '.') then none else some ([], some r)
  | c :: r => (splitOnDot r).map (fun p => (c :: p.1, p.2))

/-- Exact rational value of a decimal mantissa `ip . fp`. -/
def mantVal (ip fp : List Char) : ℚ :=
  (digitsVal ip : ℚ) + (digitsVal fp : ℚ) / (10 : ℚ) ^ fp.length

/-- Model of Python `float(s)` on finite decimal literals (see above). -/
def pyFloat (s : String) : Option ℚ :=
  let cs := stripWS s.toList
  if cs = [] then none
  else if ¬ usOK none cs then none
  else
    let cs := cs.filter (· ≠ '_')
    let sg := takeSign cs
    let me := splitOnExp sg.2
    match splitOnDot me.1 with
    | none => none
    | some (ip, fpOpt) =>
      let fp := fpOpt.getD []
      if ip.all Char.isDigit ∧ fp.all Char.isDigit ∧ (ip ≠ [] ∨ fp ≠ []) then
        let base := mantVal ip fp
        let signed : ℚ → ℚ := fun q => if sg.1 then -q else q
        match me.2 with
        | none => some (signed base)
        | some ec =>
          let es := takeSign ec
          if es.2 ≠ [] ∧ es.2.all Char.isDigit then
            let k : ℤ := if es.1 then -(digitsVal es.2 : ℤ) else (digitsVal es.2 : ℤ)
            some (signed (base * (10 : ℚ) ^ k))
          else none
      else none

/-! ## Model of Python `datetime` (whole-second precision)

The system formats timestamps with `strftime("%Y-%m-%d %H:%M:%S")` and
parses them with `strptime` of the same format, so microseconds never
survive a round trip; the model therefore carries whole seconds only. -/

structure PyDateTime where
  year : Nat
  month : Nat
  day : Nat
  hour : Nat
  minute : Nat
  second : Nat
deriving DecidableEq, Repr

/-- Leap-year predicate of the proleptic Gregorian calendar (as used by
Python's `datetime`). -/
def isLeap (y : Nat) : Bool :=
  y % 4 = 0 && (y % 100 ≠ 0 || y % 400 = 0)

/-- Days in a month, as validated by the `datetime` constructor. -/
def daysInMonth (y m : Nat) : Nat :=
  if m = 2 then (if isLeap y then 29 else 28)
  else if m = 4 ∨ m = 6 ∨ m = 9 ∨ m = 11 then 30
  else 31

/-- The invariant of every constructible Python `datetime` value (with the
whole-second restriction of this model). -/
def validDT (t : PyDateTime) : Prop :=
  1 ≤ t.year ∧ t.year ≤ 9999 ∧ 1 ≤ t.month ∧ t.month ≤ 12 ∧
  1 ≤ t.day ∧ t.day ≤ daysInMonth t.year t.month ∧
  t.hour ≤ 23 ∧ t.minute ≤ 59 ∧ t.second ≤ 59

instance (t : PyDateTime) : Decidable (validDT t) := by
  unfold validDT; infer_instance

/-- Proleptic-Gregorian day count (civil-from-days construction); an affine
shift of Python's `date.toordinal`, so it induces the same ordering and the
same day differences. -/
def daysFromCivil (y m d : Nat) : Nat :=
  let yy := if m ≤ 2 then y - 1 else y
  let era := yy / 400
  let yoe := yy % 400
  let mp := if m ≤ 2 then m + 9 else m - 3
  let doy := (153 * mp + 2) / 5 + d - 1
  let doe := yoe * 365 + yoe / 4 - yoe / 100 + doy
  era * 146097 + doe

/-- Second count used to compare `datetime` values and to apply `timedelta`
offsets: an affine shift of the POSIX timestamp, which is an order
isomorphism on valid datetimes. -/
def toSec (t : PyDateTime) : ℤ :=
  (daysFromCivil t.year t.month t.day : ℤ) * 86400 +
    t.hour * 3600 + t.minute * 60 + t.second

/-- Fixed-width zero-padded rendering of a 2-digit field (`%m`, `%d`, `%H`,
`%M`, `%S`). -/
def pad2 (n : Nat) : List Char := [digitChar (n / 10), digitChar n]

/-- Fixed-width zero-padded rendering of the year (`%Y`; Python documents
`%Y` as zero-padded, e.g. `0001`). -/
def pad4 (n : Nat) : List Char :=
  [digitChar (n / 1000), digitChar (n / 100), digitChar (n / 10), digitChar n]

/-- Model of `datetime.strftime("%Y-%m-%d %H:%M:%S")`. -/
def pyStrftime (t : PyDateTime) : String :=
  String.mk (pad4 t.year ++ '-' ::
    (pad2 t.month ++ '-' ::
      (pad2 t.day ++ ' ' ::
        (pad2 t.hour ++ ':' ::
          (pad2 t.minute ++ ':' :: pad2 t.second)))))

/-- Exactly four digits (the `%Y` pattern of `strptime`). -/
def parse4 : List Char → Option (Nat × List Char)
  | a :: b :: c :: d :: r =>
    if a.isDigit && b.isDigit && c.isDigit && d.isDigit then
      some (((dVal a * 10 + dVal b) * 10 + dVal c) * 10 + dVal d, r)
    else none
  | _ => none

/-- One or two digits, greedily (the `%m`/`%d`/`%H`/`%M`/`%S` patterns of
`strptime`; since every following literal separator is a non-digit, greedy
matching agrees with the regex alternation `strptime` compiles). -/
def parse2 : List Char → Option (Nat × List Char)
  | [] => none
  | [a] => if a.isDigit then some (dVal a, []) else none
  | a :: b :: r =>
    if a.isDigit then
      if b.isDigit then some (dVal a * 10 + dVal b, r)
      else some (dVal a, b :: r)
    else none

/-- A mandatory literal character of the `strptime` format. -/
def expectChar (c : Char) : List Char → Option (List Char)
  | x :: r => if x = c then some r else none
  | [] => none

/-- Model of `datetime.strptime(s, "%Y-%m-%d %H:%M:%S")`: `none` models the
`ValueError` raised on any mismatch, trailing input, out-of-range field or
impossible calendar date. -/
def pyStrptime (s : String) : Option PyDateTime := do
  let (y, r) ← parse4 s.toList
  let r ← expectChar '-' r
  let (m, r) ← parse2 r
  let r ← expectChar '-' r
  let (d, r) ← parse2 r
  let r ← expectChar ' ' r
  let (h, r) ← parse2 r
  let r ← expectChar ':' r
  let (mi, r) ← parse2 r
  let r ← expectChar ':' r
  let (sec, r) ← parse2 r
  if r = [] ∧ 1 ≤ y ∧ 1 ≤ m ∧ m ≤ 12 ∧ 1 ≤ d ∧ d ≤ daysInMonth y m ∧
      h ≤ 23 ∧ mi ≤ 59 ∧ sec ≤ 59 then
    some ⟨y, m, d, h, mi, sec⟩
  else none

/-! ## Configuration constants (`src/config.py`) -/

def STAGE_RECEIVED_BY_MANAGER : String := "Получено менеджером"
def STAGE_TRANSFERRED_TO_ASSISTANT : String := "Передано ассистенту"
def STAGE_ACCEPTED_BY_ASSISTANT : String := "Принято ассистентом"
def STAGE_TRANSFERRED_TO_OWNER : String := "Передано собственнику"
def STAGE_ACCEPTED_BY_OWNER : String := "Принято собственником"

def ROLE_MANAGER : String := "Менеджер"
def ROLE_ASSISTANT : String := "Ассистент"
def ROLE_OWNER : String := "Собственник"
def ROLE_NULL : String := "NULL"

def STATUS_DISCREPANCY : String := "Расхождение"
def STATUS_COMPLETE : String := "Завершено"
def STATUS_IN_PROGRESS : String := "В процессе"

/-! ## Column indices of the main deal sheet (`src/sheets/operations.py`) -/

def COL_TIMESTAMP : Nat := 0
def COL_NAME : Nat := 1
def COL_CHANNEL : Nat := 2
def COL_OWNER : Nat := 3
def COL_LOCATION : Nat := 4
def COL_CONTRACT : Nat := 5
def COL_NUMBER : Nat := 6
def COL_DATE_DS : Nat := 7
def COL_REAL_PRICE : Nat := 8
def COL_PRICE_DKP : Nat := 9
def COL_ALL_CASHLESS : Nat := 10
def COL_WHO_RECEIVED_CASH : Nat := 11
def COL_AMOUNT_RECEIVED : Nat := 12
def COL_TRANSFERRED_TO_ASSISTANT : Nat := 13
def COL_TRANSFERRED_TO_OWNER : Nat := 14
def COL_OWNER_ACCEPTED : Nat := 15
def COL_AMOUNT_ACCEPTED : Nat := 16
def COL_DIFFERENCE : Nat := 17

/-! ## Shared token parsing (`src/sheets/operations.py`, `src/business/validators.py`) -/

/-- The case-insensitive truth tokens `["да", "yes", "true", "1"]` accepted
by every Yes/No column, applied after `str(...).strip().lower()`. -/
def isYes (cell : String) : Bool :=
  ["да", "yes", "true", "1"].contains (pyLower (pyStrip cell))

/-- The amount-cell parse used throughout `operations.py`:
`str(cell).strip()`, empty means absent, then
`float(s.replace(",", ".").replace(" ", ""))` with exceptions mapped to
absent. -/
def parseAmountCell (cell : String) : Option ℚ :=
  let t := pyStrip cell
  if t = "" then none
  else pyFloat (pyReplace1 (pyReplace1 t ',' ".") ' ' "")

/-- `validate_amount_string` (`src/business/validators.py`): strip, commas
to dots, drop spaces, parse, accept only strictly positive values; any
parse failure yields `none`. -/
def validate_amount_string (amount_str : String) : Option ℚ :=
  match pyFloat (pyReplace1 (pyReplace1 (pyStrip amount_str) ',' ".") ' ' "") with
  | some amount => if 0 < amount then some amount else none
  | none => none

/-! ## Audit-log cells and `CashFlowEvent` (`src/sheets/models.py`)

`to_row` builds a Python list holding strings and one float, so log rows
are lists of an explicit `Cell` sum type. -/

inductive Cell where
  | s (t : String)
  | q (v : ℚ)
deriving DecidableEq, Repr

/-- Python `str(cell)`.  Only the string case is ever exercised by the
claims (numeric cells never occur in the DealID/stage/timestamp columns of
any value this development evaluates); the numeric rendering is the raw
rational literal, standing in for Python's float `repr`. -/
def pyStrCell : Cell → String
  | .s t => t
  | .q v => toString v

/-- Python truthiness of a cell (`""` and `0.0` are falsy). -/
def cellTruthy : Cell → Bool
  | .s t => t ≠ ""
  | .q v => v ≠ 0

/-- Python `float(cell)`: identity on floats, `pyFloat` on strings (failure
models the raised `ValueError`/`TypeError`). -/
def cellFloat : Cell → Option ℚ
  | .s t => pyFloat t
  | .q v => some v

structure CashFlowEvent where
  deal_id : String
  stage : String
  role : String
  user : String
  amount : ℚ
  timestamp : PyDateTime
deriving DecidableEq, Repr

/-- `CashFlowEvent.to_row`: the flat row appended to the audit log. -/
def CashFlowEvent.to_row (e : CashFlowEvent) : List Cell :=
  [.s e.deal_id, .s e.stage, .s e.role, .s e.user, .q e.amount,
   .s (pyStrftime e.timestamp)]

/-- `CashFlowEvent.from_row`: unpacks the first six cells (fewer raises,
modelled as `none`); `amount = float(amount_str) if amount_str else 0.0`;
`timestamp = strptime(timestamp_str, ...) if timestamp_str else
datetime.now()`, with `now` passed explicitly to keep the model pure and
parse errors modelled as `none`. -/
def CashFlowEvent.from_row (row : List Cell) (now : PyDateTime) :
    Option CashFlowEvent :=
  if 6 ≤ row.length then
    let deal_id := row.getD 0 (.s "")
    let stage := row.getD 1 (.s "")
    let role := row.getD 2 (.s "")
    let user := row.getD 3 (.s "")
    let amount_cell := row.getD 4 (.s "")
    let ts_cell := row.getD 5 (.s "")
    let amount? := if cellTruthy amount_cell then cellFloat amount_cell else some 0
    let ts? := if cellTruthy ts_cell then
        (match ts_cell with | .s t => pyStrptime t | .q _ => none)
      else some now
    match amount?, ts? with
    | some amount, some ts =>
      some ⟨pyStrCell deal_id, pyStrCell stage, pyStrCell role, pyStrCell user,
            amount, ts⟩
    | _, _ => none
  else none

/-! ## `create_cashflow_event` (`src/sheets/operations.py`, lines 432-482)

The audit-log worksheet state is the list of its rows (header row first,
as `get_all_values` returns it).  The duplicate gate locates the
`DealID`/`Этап`/`Timestamp` columns by `headers.index(...)` (a missing
header raises `ValueError`, caught: the check is skipped), then scans the
data rows; a matching row whose timestamp parses and is `>=` the event's
timestamp minus 5 minutes suppresses the append and reports failure.
Otherwise the event's flattened row is appended and the call reports
success.  The returned pair is (new log state, reported success). -/

/-- The header row `ensure_cashflow_log_exists` provisions. -/
def cfHeader : List Cell :=
  [.s "DealID", .s "Этап", .s "Роль", .s "Пользователь", .s "Сумма",
   .s "Timestamp"]

def create_cashflow_event (log : List (List Cell)) (event : CashFlowEvent) :
    List (List Cell) × Bool :=
  let dup : Bool :=
    if 1 < log.length then
      let headers := log.headD []
      if headers.contains (Cell.s "DealID") &&
         headers.contains (Cell.s "Этап") &&
         headers.contains (Cell.s "Timestamp") then
        let deal_id_col := headers.indexOf (Cell.s "DealID")
        let stage_col := headers.indexOf (Cell.s "Этап")
        let timestamp_col := headers.indexOf (Cell.s "Timestamp")
        log.tail.any fun row =>
          decide (max deal_id_col (max stage_col timestamp_col) < row.length) &&
          (pyStrCell (row.getD deal_id_col (.s "")) == event.deal_id) &&
          (pyStrCell (row.getD stage_col (.s "")) == event.stage) &&
          (match pyStrptime (pyStrCell (row.getD timestamp_col (.s ""))) with
           | some t => decide (toSec event.timestamp - 300 ≤ toSec t)
           | none => false)
      else false
    else false
  if dup then (log, false) else (log ++ [event.to_row], true)

/-- The duplicate gate of `create_cashflow_event`, restated over the data
rows of a log whose header is the canonical `cfHeader` (columns 0, 1, 5). -/
def logDupGate (rows : List (List Cell)) (event : CashFlowEvent) : Bool :=
  rows.any fun row =>
    decide (5 < row.length) &&
    (pyStrCell (row.getD 0 (.s "")) == event.deal_id) &&
    (pyStrCell (row.getD 1 (.s "")) == event.stage) &&
    (match pyStrptime (pyStrCell (row.getD 5 (.s ""))) with
     | some t => decide (toSec event.timestamp - 300 ≤ toSec t)
     | none => false)

/-- The claim's own suppression condition, taken literally: a data row with
the same deal and stage whose timestamp parses and lies *within the 5
minutes preceding* the event's timestamp (i.e. also not after it). -/
def claimDupGate (rows : List (List Cell)) (event : CashFlowEvent) : Bool :=
  rows.any fun row =>
    decide (5 < row.length) &&
    (pyStrCell (row.getD 0 (.s "")) == event.deal_id) &&
    (pyStrCell (row.getD 1 (.s "")) == event.stage) &&
    (match pyStrptime (pyStrCell (row.getD 5 (.s ""))) with
     | some t => decide (toSec event.timestamp - 300 ≤ toSec t ∧
                         toSec t ≤ toSec event.timestamp)
     | none => false)

/-! ## Stage sequencing (`src/business/cashflow.py`) -/

/-- The (possibly assistant-skipping) stage list built inside
`get_next_stage`. -/
def stage_sequence (skip_assistant : Bool) : List String :=
  if skip_assistant then
    [STAGE_RECEIVED_BY_MANAGER, STAGE_TRANSFERRED_TO_OWNER,
     STAGE_ACCEPTED_BY_OWNER]
  else
    [STAGE_RECEIVED_BY_MANAGER, STAGE_TRANSFERRED_TO_ASSISTANT,
     STAGE_ACCEPTED_BY_ASSISTANT, STAGE_TRANSFERRED_TO_OWNER,
     STAGE_ACCEPTED_BY_OWNER]

/-- `get_next_stage` (lines 81-109): `None` maps to the first stage;
otherwise `list.index` (whose `ValueError` on a non-member is caught,
yielding `None`) advances one position, `None` past the end. -/
def get_next_stage (current_stage : Option String)
    (skip_assistant : Bool := false) : Option String :=
  match current_stage with
  | none => some STAGE_RECEIVED_BY_MANAGER
  | some cur =>
    let seq := stage_sequence skip_assistant
    if seq.contains cur then
      let current_index := seq.indexOf cur
      if current_index < seq.length - 1 then seq.get? (current_index + 1)
      else none
    else none

/-! ## Discrepancies (`src/sheets/operations.py`, lines 586-619)

`calculate_discrepancies` runs on the event history of one deal, in the
ascending-timestamp order `get_cashflow_history` returns; the loop keeps
the amount of the last event seen at each of the four transfer/accept
stages. -/

/-- One pass of the variable-assignment loop of `calculate_discrepancies`:
the accumulator is (transferred_to_assistant, accepted_by_assistant,
transferred_to_owner, accepted_by_owner). -/
def discStep (acc : Option ℚ × Option ℚ × Option ℚ × Option ℚ)
    (event : CashFlowEvent) : Option ℚ × Option ℚ × Option ℚ × Option ℚ :=
  if event.stage == STAGE_TRANSFERRED_TO_ASSISTANT then
    (some event.amount, acc.2.1, acc.2.2.1, acc.2.2.2)
  else if event.stage == STAGE_ACCEPTED_BY_ASSISTANT then
    (acc.1, some event.amount, acc.2.2.1, acc.2.2.2)
  else if event.stage == STAGE_TRANSFERRED_TO_OWNER then
    (acc.1, acc.2.1, some event.amount, acc.2.2.2)
  else if event.stage == STAGE_ACCEPTED_BY_OWNER then
    (acc.1, acc.2.1, acc.2.2.1, some event.amount)
  else acc

/-- `calculate_discrepancies`, as a function of the deal's timestamp-sorted
event history; the result models the built dict in insertion order
(`"assistant"` entry first, then `"owner"`). -/
def calculate_discrepancies (events : List CashFlowEvent) :
    List (String × ℚ) :=
  let v := events.foldl discStep (none, none, none, none)
  (match v.1, v.2.1 with
   | some t, some a => if t - a ≠ 0 then [("assistant", t - a)] else []
   | _, _ => []) ++
  (match v.2.2.1, v.2.2.2 with
   | some t, some a => if t - a ≠ 0 then [("owner", t - a)] else []
   | _, _ => [])

/-- Specification-side reading: the amount of the latest (last in history
order) event recorded at `stage`, if any. -/
def lastAmountAt (events : List CashFlowEvent) (stage : String) : Option ℚ :=
  match events with
  | [] => none
  | e :: rest =>
    match lastAmountAt rest stage with
    | some v => some v
    | none => if e.stage == stage then some e.amount else none

/-- Specification-side reading of one discrepancy entry: present exactly
when both amounts are present and differ. -/
def pairEntry (key : String) : Option ℚ → Option ℚ → List (String × ℚ)
  | some t, some a => if t = a then [] else [(key, t - a)]
  | _, _ => []

/-- Last-assignment-wins combination: the second value if present, else the
first. -/
def lastOr (a l : Option ℚ) : Option ℚ :=
  match l with
  | some v => some v
  | none => a

/-! ## Deal summary (`src/business/cashflow.py`, lines 112-153) -/

structure DealSummary where
  deal_id : String
  received_by_manager : Option ℚ
  transferred_to_assistant : Option ℚ
  accepted_by_assistant : Option ℚ
  transferred_to_owner : Option ℚ
  accepted_by_owner : Option ℚ
  discrepancies : List (String × ℚ)
  status : String
deriving DecidableEq, Repr

/-- The stage-slot assignment loop of `get_deal_summary`. -/
def summaryStep (acc : DealSummary) (event : CashFlowEvent) : DealSummary :=
  if event.stage == STAGE_RECEIVED_BY_MANAGER then
    { acc with received_by_manager := some event.amount }
  else if event.stage == STAGE_TRANSFERRED_TO_ASSISTANT then
    { acc with transferred_to_assistant := some event.amount }
  else if event.stage == STAGE_ACCEPTED_BY_ASSISTANT then
    { acc with accepted_by_assistant := some event.amount }
  else if event.stage == STAGE_TRANSFERRED_TO_OWNER then
    { acc with transferred_to_owner := some event.amount }
  else if event.stage == STAGE_ACCEPTED_BY_OWNER then
    { acc with accepted_by_owner := some event.amount }
  else acc

/-- `get_deal_summary`, as a function of the deal's timestamp-sorted event
history. -/
def get_deal_summary (deal_id : String) (events : List CashFlowEvent) :
    DealSummary :=
  let base : DealSummary :=
    ⟨deal_id, none, none, none, none, none, [], STATUS_IN_PROGRESS⟩
  let s := events.foldl summaryStep base
  let discrepancies := calculate_discrepancies events
  let s := { s with discrepancies := discrepancies }
  if s.accepted_by_owner.isSome then
    if discrepancies ≠ [] then { s with status := STATUS_DISCREPANCY }
    else { s with status := STATUS_COMPLETE }
  else if discrepancies ≠ [] then { s with status := STATUS_DISCREPANCY }
  else s

/-! ## Deal-row parsing, duplicated in two modules (claim C8)

`src/sheets/operations.py` lines 151-236 and `src/utils/cache.py` lines
30-113 each define `_build_deal_id` / `_parse_deal_from_row`; both are
transcribed separately below.  Main-sheet rows are lists of strings, as
`get_all_values` returns them. -/

structure Deal where
  deal_id : String
  received_by_manager : Option ℚ := none
  transferred_to_assistant : Option ℚ := none
  accepted_by_assistant : Option ℚ := none
  transferred_to_owner : Option ℚ := none
  accepted_by_owner : Option ℚ := none
  manager_confirmed : Bool := false
  assistant_received_confirmed : Bool := false
  assistant_transferred_confirmed : Bool := false
  owner_confirmed : Bool := false
  who_received_cash : Option String := none
  all_cashless : Bool := false
  discrepancy : Option ℚ := none
  status : String := STATUS_IN_PROGRESS
  row_index : Option Nat := none
deriving DecidableEq, Repr

/-- Python's `a or b` on two optional floats (`None` and `0.0` are falsy),
as used in `deal.transferred_to_owner = amount_accepted or
amount_received`. -/
def pyOrQ (a b : Option ℚ) : Option ℚ :=
  match a with
  | some x => if x = 0 then b else some x
  | none => b

def SheetsOps.build_deal_id (row : List String) : String :=
  pyStrip (row.getD COL_OWNER "") ++ "/" ++
  pyStrip (row.getD COL_LOCATION "") ++ "/" ++
  pyStrip (row.getD COL_NUMBER "")

def SheetsOps.parse_deal_from_row (row : List String) (row_index : Nat) :
    Option Deal :=
  if row.length ≤ COL_OWNER then none
  else
    let deal_id := SheetsOps.build_deal_id row
    if deal_id = "" ∨ deal_id = "//" then none
    else
      let all_cashless := isYes (row.getD COL_ALL_CASHLESS "")
      let who_received_cash := pyStrip (row.getD COL_WHO_RECEIVED_CASH "")
      let amount_received := parseAmountCell (row.getD COL_AMOUNT_RECEIVED "")
      let amount_accepted := parseAmountCell (row.getD COL_AMOUNT_ACCEPTED "")
      let transferred_to_assistant :=
        isYes (row.getD COL_TRANSFERRED_TO_ASSISTANT "")
      let transferred_to_owner := isYes (row.getD COL_TRANSFERRED_TO_OWNER "")
      let owner_accepted := isYes (row.getD COL_OWNER_ACCEPTED "")
      let difference := parseAmountCell (row.getD COL_DIFFERENCE "")
      let deal : Deal :=
        { deal_id := deal_id, received_by_manager := amount_received,
          who_received_cash := some who_received_cash,
          all_cashless := all_cashless, discrepancy := difference }
      let deal := if transferred_to_assistant then
          { deal with transferred_to_assistant := amount_received }
        else deal
      let deal := if owner_accepted || transferred_to_owner then
          { deal with transferred_to_owner := pyOrQ amount_accepted amount_received }
        else deal
      let deal := if owner_accepted then
          { deal with accepted_by_owner := amount_accepted }
        else deal
      some { deal with row_index := some (row_index + 2) }

def UtilsCache.build_deal_id (row : List String) : String :=
  pyStrip (row.getD COL_OWNER "") ++ "/" ++
  pyStrip (row.getD COL_LOCATION "") ++ "/" ++
  pyStrip (row.getD COL_NUMBER "")

def UtilsCache.parse_deal_from_row (row : List String) (row_index : Nat) :
    Option Deal :=
  if row.length ≤ COL_OWNER then none
  else
    let deal_id := UtilsCache.build_deal_id row
    if deal_id = "" ∨ deal_id = "//" then none
    else
      let all_cashless := isYes (row.getD COL_ALL_CASHLESS "")
      let who_received_cash := pyStrip (row.getD COL_WHO_RECEIVED_CASH "")
      let amount_received := parseAmountCell (row.getD COL_AMOUNT_RECEIVED "")
      let amount_accepted := parseAmountCell (row.getD COL_AMOUNT_ACCEPTED "")
      let transferred_to_assistant :=
        isYes (row.getD COL_TRANSFERRED_TO_ASSISTANT "")
      let transferred_to_owner := isYes (row.getD COL_TRANSFERRED_TO_OWNER "")
      let owner_accepted := isYes (row.getD COL_OWNER_ACCEPTED "")
      let difference := parseAmountCell (row.getD COL_DIFFERENCE "")
      let deal : Deal :=
        { deal_id := deal_id, received_by_manager := amount_received,
          who_received_cash := some who_received_cash,
          all_cashless := all_cashless, discrepancy := difference }
      let deal := if transferred_to_assistant then
          { deal with transferred_to_assistant := amount_received }
        else deal
      let deal := if owner_accepted || transferred_to_owner then
          { deal with transferred_to_owner := pyOrQ amount_accepted amount_received }
        else deal
      let deal := if owner_accepted then
          { deal with accepted_by_owner := amount_accepted }
        else deal
      some { deal with row_index := some (row_index + 2) }

/-! ## `update_deal_status_with_role` (`src/sheets/operations.py`, 518-583)

The main sheet is its `get_all_values` row list (header first).  The
stage-specific `update_cell` calls are recorded as a write trace of
(1-based row, 1-based column, value); they never feed back into anything a
claim observes.  The audit-log append is threaded through the returned log
state; its reported success/failure is *discarded* by the source, which
returns `True` whenever a row matching the deal id was found. -/

structure UpdateResult where
  writes : List (Nat × Nat × Cell)
  log : List (List Cell)
  ok : Bool
deriving DecidableEq, Repr

/-- The row-search loop: first data row (1-based sheet index, starting at
2) that is long enough and whose built deal id matches. -/
def findDealRow : List (List String) → Nat → String →
    Option (Nat × List String)
  | [], _, _ => none
  | row :: rest, idx, deal_id =>
    if COL_OWNER < row.length ∧ SheetsOps.build_deal_id row = deal_id then
      some (idx, row)
    else findDealRow rest (idx + 1) deal_id

/-- The stage-conditional `update_cell` calls (columns are 1-based in the
sheet API, hence the `+ 1`). -/
def stageWrites (idx : Nat) (stage : String) (amount : ℚ)
    (row : List String) : List (Nat × Nat × Cell) :=
  if stage == STAGE_RECEIVED_BY_MANAGER then
    [(idx, COL_AMOUNT_RECEIVED + 1, Cell.q amount)]
  else if stage == STAGE_TRANSFERRED_TO_ASSISTANT then
    [(idx, COL_TRANSFERRED_TO_ASSISTANT + 1, Cell.s "Да")]
  else if stage == STAGE_ACCEPTED_BY_ASSISTANT then
    [(idx, COL_TRANSFERRED_TO_ASSISTANT + 1, Cell.s "Да")]
  else if stage == STAGE_TRANSFERRED_TO_OWNER then
    [(idx, COL_TRANSFERRED_TO_OWNER + 1, Cell.s "Да")]
  else if stage == STAGE_ACCEPTED_BY_OWNER then
    [(idx, COL_TRANSFERRED_TO_OWNER + 1, Cell.s "Да"),
     (idx, COL_OWNER_ACCEPTED + 1, Cell.s "Да"),
     (idx, COL_AMOUNT_ACCEPTED + 1, Cell.q amount)] ++
    (match parseAmountCell (row.getD COL_AMOUNT_RECEIVED "") with
     | some amount_received =>
       [(idx, COL_DIFFERENCE + 1, Cell.q (amount_received - amount))]
     | none => [])
  else []

/-- `update_deal_status_with_role`; `now` is the `datetime.now()` used for
the appended event. -/
def update_deal_status_with_role (main : List (List String))
    (log : List (List Cell)) (deal_id stage : String) (amount : ℚ)
    (user role : String) (now : PyDateTime) : UpdateResult :=
  match findDealRow main.tail 2 deal_id with
  | some (idx, row) =>
    let event : CashFlowEvent := ⟨deal_id, stage, role, user, amount, now⟩
    { writes := stageWrites idx stage amount row,
      log := (create_cashflow_event log event).1,
      ok := true }
  | none => { writes := [], log := log, ok := false }

/-- `process_stage_transition` (`src/business/cashflow.py`, 59-78):
delegates to `update_deal_status_with_role`; `from_stage` is accepted but
unused. -/
def process_stage_transition (main : List (List String))
    (log : List (List Cell)) (deal_id from_stage to_stage : String)
    (amount : ℚ) (user role : String) (now : PyDateTime) : UpdateResult :=
  update_deal_status_with_role main log deal_id to_stage amount user role now

/-! ## `get_debt_summary` (`src/sheets/operations.py`, lines 281-351)

The per-manager dict is an association list in insertion order. -/

structure DebtDeal where
  deal_id : String
  amount : ℚ
  who_received : String
deriving DecidableEq, Repr

structure DebtInfo where
  total_debt : ℚ
  deals_count : Nat
  deals : List DebtDeal
deriving DecidableEq, Repr

/-- Dict update `debt_by_manager[name]`: create the entry on first use,
otherwise accumulate in place (insertion order preserved). -/
def updateAssoc (acc : List (String × DebtInfo)) (key : String) (amount : ℚ)
    (deal_id who_received : String) : List (String × DebtInfo) :=
  if acc.any (fun p => p.1 == key) then
    acc.map fun p =>
      if p.1 == key then
        (p.1, ⟨p.2.total_debt + amount, p.2.deals_count + 1,
               p.2.deals ++ [⟨deal_id, amount, who_received⟩]⟩)
      else p
  else acc ++ [(key, ⟨amount, 1, [⟨deal_id, amount, who_received⟩]⟩)]

/-- One loop iteration of `get_debt_summary` over a data row (the Python
locals `manager_name`, `who_received` and `amount` are inlined). -/
def debtStep (acc : List (String × DebtInfo)) (row : List String) :
    List (String × DebtInfo) :=
  if isYes (row.getD COL_ALL_CASHLESS "") then acc
  else if ["не получали", "не получали", ""].contains
      (pyLower (pyStrip (row.getD COL_WHO_RECEIVED_CASH ""))) then acc
  else if isYes (row.getD COL_TRANSFERRED_TO_OWNER "") &&
          isYes (row.getD COL_OWNER_ACCEPTED "") then acc
  else if 0 < (parseAmountCell (row.getD COL_AMOUNT_RECEIVED "")).getD 0 then
    updateAssoc acc
      (if COL_NAME < row.length then pyStrip (row.getD COL_NAME "")
       else "Неизвестно")
      ((parseAmountCell (row.getD COL_AMOUNT_RECEIVED "")).getD 0)
      (SheetsOps.build_deal_id row)
      (pyStrip (row.getD COL_WHO_RECEIVED_CASH ""))
  else acc

def get_debt_summary (all_values : List (List String)) :
    List (String × DebtInfo) :=
  if all_values.length < 2 then []
  else all_values.tail.foldl debtStep []

/-- The exclusion condition of `get_debt_summary`, named for the claim:
fully cashless, cash not received yet, already transferred and accepted,
or no positive received amount. -/
def debtSkip (row : List String) : Bool :=
  isYes (row.getD COL_ALL_CASHLESS "") ||
  ["не получали", "не получали", ""].contains
    (pyLower (pyStrip (row.getD COL_WHO_RECEIVED_CASH ""))) ||
  (isYes (row.getD COL_TRANSFERRED_TO_OWNER "") &&
   isYes (row.getD COL_OWNER_ACCEPTED "")) ||
  !(0 < (parseAmountCell (row.getD COL_AMOUNT_RECEIVED "")).getD 0 : Bool)

/-- The manager key an included row is filed under: the trimmed
introduced-name cell as-is; `"Неизвестно"` only when the row is too short
to contain that column. -/
def debtKey (row : List String) : String :=
  if COL_NAME < row.length then pyStrip (row.getD COL_NAME "")
  else "Неизвестно"

/-- The received amount an included row contributes. -/
def debtAmount (row : List String) : ℚ :=
  (parseAmountCell (row.getD COL_AMOUNT_RECEIVED "")).getD 0

/-- First value stored under a key of the association-list dict. -/
def findVal (acc : List (String × DebtInfo)) (key : String) :
    Option DebtInfo :=
  (acc.find? (fun p => p.1 == key)).map (fun p => p.2)

/-! ## Roles (`src/sheets/models.py`, `src/business/roles.py`) -/

structure UserRole where
  telegram_id : String
  name : Option String := none
  role : String := ROLE_NULL
  predstavites : Option String := none
deriving DecidableEq, Repr

def UserRole.is_manager (u : UserRole) : Bool := u.role == ROLE_MANAGER

def UserRole.is_assistant (u : UserRole) : Bool := u.role == ROLE_ASSISTANT

def UserRole.is_owner (u : UserRole) : Bool := u.role == ROLE_OWNER

def UserRole.has_role (u : UserRole) : Bool := u.role != ROLE_NULL

/-- `can_confirm_stage` (`src/business/roles.py`, lines 25-38). -/
def can_confirm_stage (user_role : UserRole) (stage : String) : Bool :=
  if stage == STAGE_RECEIVED_BY_MANAGER then user_role.is_manager
  else if stage == STAGE_TRANSFERRED_TO_ASSISTANT then user_role.is_manager
  else if stage == STAGE_ACCEPTED_BY_ASSISTANT then user_role.is_assistant
  else if stage == STAGE_TRANSFERRED_TO_OWNER then user_role.is_assistant
  else if stage == STAGE_ACCEPTED_BY_OWNER then user_role.is_owner
  else false

/-- `get_next_stage_for_role` (`src/business/roles.py`, lines 41-59). -/
def get_next_stage_for_role (user_role : UserRole)
    (current_stage : Option String) : Option String :=
  if user_role.is_manager then
    match current_stage with
    | none => some STAGE_RECEIVED_BY_MANAGER
    | some c =>
      if c == STAGE_RECEIVED_BY_MANAGER then
        some STAGE_TRANSFERRED_TO_ASSISTANT
      else none
  else if user_role.is_assistant then
    match current_stage with
    | some c =>
      if c == STAGE_TRANSFERRED_TO_ASSISTANT then
        some STAGE_ACCEPTED_BY_ASSISTANT
      else if c == STAGE_ACCEPTED_BY_ASSISTANT then
        some STAGE_TRANSFERRED_TO_OWNER
      else none
    | none => none
  else if user_role.is_owner then
    match current_stage with
    | some c =>
      if c == STAGE_TRANSFERRED_TO_OWNER then some STAGE_ACCEPTED_BY_OWNER
      else none
    | none => none
  else none

/-! # Theorems -/

/-! ## Datetime round trip -/

theorem digitChar_spec (n : Nat) :
    (digitChar n).isDigit = true ∧ dVal (digitChar n) = n % 10 := by
  have h : n % 10 < 10 := Nat.mod_lt _ (by norm_num)
  unfold digitChar dVal
  generalize n % 10 = k at h ⊢
  interval_cases k <;> decide

theorem parse4_pad4 (y : Nat) (hy : y ≤ 9999) (r : List Char) :
    parse4 (pad4 y ++ r) = some (y, r) := by
  have h1 := digitChar_spec (y / 1000)
  have h2 := digitChar_spec (y / 100)
  have h3 := digitChar_spec (y / 10)
  have h4 := digitChar_spec y
  simp only [pad4, List.cons_append, List.nil_append, parse4,
    h1.1, h2.1, h3.1, h4.1, Bool.and_self, if_true, h1.2, h2.2, h3.2, h4.2,
    Option.some.injEq, Prod.mk.injEq, and_true]
  omega

theorem parse2_pad2 (m : Nat) (hm : m ≤ 99) (r : List Char) :
    parse2 (pad2 m ++ r) = some (m, r) := by
  have h1 := digitChar_spec (m / 10)
  have h2 := digitChar_spec m
  simp only [pad2, List.cons_append, List.nil_append, parse2,
    h1.1, h2.1, if_true, h1.2, h2.2, Option.some.injEq, Prod.mk.injEq,
    and_true]
  omega

theorem expectChar_cons (c : Char) (r : List Char) :
    expectChar c (c :: r) = some r := by
  simp [expectChar]

theorem strptime_strftime (t : PyDateTime) (h : validDT t) :
    pyStrptime (pyStrftime t) = some t := by
  obtain ⟨y, mo, dy, hh, mi, se⟩ := t
  obtain ⟨h1, h2, h3, h4, h5, h6, h7, h8, h9⟩ := h
  simp only at h1 h2 h3 h4 h5 h6 h7 h8 h9
  have hdm : dy ≤ 99 := le_trans h6 (by unfold daysInMonth; split_ifs <;> omega)
  unfold pyStrptime pyStrftime
  rw [show (String.mk (pad4 y ++ '-' :: (pad2 mo ++ '-' :: (pad2 dy ++ ' ' ::
      (pad2 hh ++ ':' :: (pad2 mi ++ ':' :: pad2 se)))))).toList =
    pad4 y ++ '-' :: (pad2 mo ++ '-' :: (pad2 dy ++ ' ' ::
      (pad2 hh ++ ':' :: (pad2 mi ++ ':' :: pad2 se)))) from rfl]
  rw [parse4_pad4 y h2]
  simp only [Option.bind_eq_bind, Option.some_bind, expectChar_cons]
  rw [parse2_pad2 mo (by omega)]
  simp only [Option.some_bind, expectChar_cons]
  rw [parse2_pad2 dy hdm]
  simp only [Option.some_bind, expectChar_cons]
  rw [parse2_pad2 hh (by omega)]
  simp only [Option.some_bind, expectChar_cons]
  rw [parse2_pad2 mi (by omega)]
  simp only [Option.some_bind, expectChar_cons]
  rw [show pad2 se = pad2 se ++ ([] : List Char) from (List.append_nil _).symm,
    parse2_pad2 se (by omega)]
  simp only [Option.some_bind]
  simp [h1, h3, h4, h5, h6, h7, h8, h9]

theorem strftime_ne_empty (t : PyDateTime) : pyStrftime t ≠ "" := by
  intro hc
  have h2 : pad4 t.year ++ '-' :: (pad2 t.month ++ '-' :: (pad2 t.day ++ ' ' ::
      (pad2 t.hour ++ ':' :: (pad2 t.minute ++ ':' :: pad2 t.second)))) =
      ([] : List Char) := congrArg String.toList hc
  simp [pad4] at h2

/-- Claim C10 (confirmed): for every `CashFlowEvent` whose timestamp has
whole-second precision (the model's `PyDateTime`, under the `datetime` type
invariant `validDT`), `from_row (to_row e)` returns an event equal to the
original in all six fields. -/
theorem cashflow_event_row_roundtrip (e : CashFlowEvent) (now : PyDateTime)
    (h : validDT e.timestamp) :
    CashFlowEvent.from_row e.to_row now = some e := by
  obtain ⟨d, st, ro, us, am, ts⟩ := e
  simp only at h
  have hts : pyStrptime (pyStrftime ts) = some ts := strptime_strftime ts h
  have hne : (pyStrftime ts ≠ "") := strftime_ne_empty ts
  by_cases ha : am = 0
  · subst ha
    simp [CashFlowEvent.to_row, CashFlowEvent.from_row, cellTruthy, cellFloat,
      pyStrCell, hne, hts]
  · simp [CashFlowEvent.to_row, CashFlowEvent.from_row, cellTruthy, cellFloat,
      pyStrCell, hne, hts, ha]

theorem cashflow_event_row_roundtrip_witness :
    CashFlowEvent.from_row
        (CashFlowEvent.to_row
          ⟨"X", "Передано ассистенту", "Менеджер", "u", 100,
           ⟨2025, 1, 2, 3, 4, 5⟩⟩) ⟨2000, 1, 1, 0, 0, 0⟩ =
      some ⟨"X", "Передано ассистенту", "Менеджер", "u", 100,
            ⟨2025, 1, 2, 3, 4, 5⟩⟩ :=
  cashflow_event_row_roundtrip
    ⟨"X", "Передано ассистенту", "Менеджер", "u", 100, ⟨2025, 1, 2, 3, 4, 5⟩⟩
    ⟨2000, 1, 1, 0, 0, 0⟩ (by decide)

/-! ## Claim C1: the idempotency gate of `create_cashflow_event` -/

theorem create_gate_char (log : List (List Cell)) (event : CashFlowEvent)
    (hhdr : log.head? = some cfHeader) :
    create_cashflow_event log event =
      if logDupGate log.tail event then (log, false)
      else (log ++ [event.to_row], true) := by
  match log, hhdr with
  | hd :: tl, hhdr =>
    have hh : hd = cfHeader := by simpa using hhdr
    subst hh
    cases tl with
    | nil => rfl
    | cons r rs =>
      have hc1 : cfHeader.contains (Cell.s "DealID") = true := by decide
      have hc2 : cfHeader.contains (Cell.s "Этап") = true := by decide
      have hc3 : cfHeader.contains (Cell.s "Timestamp") = true := by decide
      have hD : List.indexOf (Cell.s "DealID") cfHeader = 0 := by decide
      have hS : List.indexOf (Cell.s "Этап") cfHeader = 1 := by decide
      have hT : List.indexOf (Cell.s "Timestamp") cfHeader = 5 := by decide
      simp only [create_cashflow_event, logDupGate, List.headD_cons,
        List.tail_cons, hc1, hc2, hc3, hD, hS, hT, List.length_cons,
        Bool.and_self, if_true]
      norm_num

/-- Claim C1 (counterexample): the claim's "exactly when ... within the 5
minutes preceding the event's timestamp" fails on the code.  A log row with
the same deal and stage timestamped 10:00, one hour *after* the event's
09:00 timestamp, is not within the 5 minutes preceding the event
(`claimDupGate` is false), yet the code compares only
`row_timestamp >= event.timestamp - 5min`, suppresses the append and
reports failure. -/
theorem create_cashflow_event_counterexample :
    create_cashflow_event
        [cfHeader,
         [.s "X", .s "Передано ассистенту", .s "Менеджер", .s "u", .q 100,
          .s "2025-01-01 10:00:00"]]
        ⟨"X", "Передано ассистенту", "Менеджер", "u", 100,
         ⟨2025, 1, 1, 9, 0, 0⟩⟩ =
      ([cfHeader,
        [.s "X", .s "Передано ассистенту", .s "Менеджер", .s "u", .q 100,
         .s "2025-01-01 10:00:00"]], false) ∧
    claimDupGate
        [[.s "X", .s "Передано ассистенту", .s "Менеджер", .s "u", .q 100,
          .s "2025-01-01 10:00:00"]]
        ⟨"X", "Передано ассистенту", "Менеджер", "u", 100,
         ⟨2025, 1, 1, 9, 0, 0⟩⟩ = false := by
  constructor
  · rfl
  · rfl

/-- Claim C1 (amended): on a log whose header row is the canonical
`cfHeader`, `create_cashflow_event` suppresses the append and returns
failure exactly when some data row has the same deal id and stage and a
parseable timestamp that is *no earlier than 5 minutes before* the event's
timestamp — later timestamps, including ones after the event, also count
as duplicates (rows whose timestamp fails to parse are ignored); otherwise
it appends the event's flattened row and returns success.  Consequently
appending the same (deal_id, stage) twice within 5 minutes leaves exactly
one stored data row, while a third append after the 5-minute window yields
two stored data rows. -/
theorem create_cashflow_event_gate :
    (∀ (log : List (List Cell)) (event : CashFlowEvent),
       log.head? = some cfHeader →
       create_cashflow_event log event =
         if logDupGate log.tail event then (log, false)
         else (log ++ [event.to_row], true)) ∧
    (∀ e1 e2 e3 : CashFlowEvent,
       validDT e1.timestamp →
       e2.deal_id = e1.deal_id → e2.stage = e1.stage →
       e3.deal_id = e1.deal_id → e3.stage = e1.stage →
       toSec e2.timestamp - 300 ≤ toSec e1.timestamp →
       toSec e1.timestamp < toSec e3.timestamp - 300 →
       ((create_cashflow_event [cfHeader] e1).1.tail.length = 1 ∧
        create_cashflow_event (create_cashflow_event [cfHeader] e1).1 e2 =
          ((create_cashflow_event [cfHeader] e1).1, false) ∧
        (create_cashflow_event
            (create_cashflow_event
              (create_cashflow_event [cfHeader] e1).1 e2).1
            e3).1.tail.length = 2)) := by
  constructor
  · exact create_gate_char
  · intro e1 e2 e3 hv hd2 hs2 hd3 hs3 h2in h3out
    have hts : pyStrptime (pyStrftime e1.timestamp) = some e1.timestamp :=
      strptime_strftime e1.timestamp hv
    have hl1 : create_cashflow_event [cfHeader] e1 =
        ([cfHeader, e1.to_row], true) := by
      rw [create_gate_char [cfHeader] e1 rfl]
      rfl
    have hg2 : logDupGate [e1.to_row] e2 = true := by
      simp [logDupGate, CashFlowEvent.to_row, pyStrCell, hts, hd2, hs2]
      omega
    have hl2 : create_cashflow_event [cfHeader, e1.to_row] e2 =
        ([cfHeader, e1.to_row], false) := by
      rw [create_gate_char [cfHeader, e1.to_row] e2 rfl]
      simp only [List.tail_cons, hg2, if_true]
    have hg3 : logDupGate [e1.to_row] e3 = false := by
      simp [logDupGate, CashFlowEvent.to_row, pyStrCell, hts, hd3, hs3]
      omega
    have hl3 : create_cashflow_event [cfHeader, e1.to_row] e3 =
        ([cfHeader, e1.to_row, e3.to_row], true) := by
      rw [create_gate_char [cfHeader, e1.to_row] e3 rfl]
      simp only [List.tail_cons, hg3]
      rfl
    refine ⟨by rw [hl1]; rfl, by rw [hl1]; exact hl2, ?_⟩
    rw [hl1]
    simp only
    rw [hl2]
    simp only
    rw [hl3]
    rfl

theorem create_cashflow_event_gate_witness :
    (create_cashflow_event [cfHeader]
        ⟨"X", "Передано ассистенту", "Менеджер", "u", 100,
         ⟨2025, 1, 1, 9, 0, 0⟩⟩ =
      ([cfHeader,
        CashFlowEvent.to_row
          ⟨"X", "Передано ассистенту", "Менеджер", "u", 100,
           ⟨2025, 1, 1, 9, 0, 0⟩⟩], true)) ∧
    ((create_cashflow_event [cfHeader]
        ⟨"X", "Передано ассистенту", "Менеджер", "u", 100,
         ⟨2025, 1, 1, 9, 0, 0⟩⟩).1.tail.length = 1 ∧
     create_cashflow_event
         (create_cashflow_event [cfHeader]
           ⟨"X", "Передано ассистенту", "Менеджер", "u", 100,
            ⟨2025, 1, 1, 9, 0, 0⟩⟩).1
         ⟨"X", "Передано ассистенту", "Менеджер", "u", 100,
          ⟨2025, 1, 1, 9, 1, 0⟩⟩ =
       ((create_cashflow_event [cfHeader]
           ⟨"X", "Передано ассистенту", "Менеджер", "u", 100,
            ⟨2025, 1, 1, 9, 0, 0⟩⟩).1, false) ∧
     (create_cashflow_event
         (create_cashflow_event
           (create_cashflow_event [cfHeader]
             ⟨"X", "Передано ассистенту", "Менеджер", "u", 100,
              ⟨2025, 1, 1, 9, 0, 0⟩⟩).1
           ⟨"X", "Передано ассистенту", "Менеджер", "u", 100,
            ⟨2025, 1, 1, 9, 1, 0⟩⟩).1
         ⟨"X", "Передано ассистенту", "Менеджер", "u", 100,
          ⟨2025, 1, 1, 9, 10, 0⟩⟩).1.tail.length = 2) := by
  constructor
  · have h := create_cashflow_event_gate.1 [cfHeader]
      ⟨"X", "Передано ассистенту", "Менеджер", "u", 100,
       ⟨2025, 1, 1, 9, 0, 0⟩⟩ rfl
    rw [h]
    rfl
  · exact create_cashflow_event_gate.2
      ⟨"X", "Передано ассистенту", "Менеджер", "u", 100,
       ⟨2025, 1, 1, 9, 0, 0⟩⟩
      ⟨"X", "Передано ассистенту", "Менеджер", "u", 100,
       ⟨2025, 1, 1, 9, 1, 0⟩⟩
      ⟨"X", "Передано ассистенту", "Менеджер", "u", 100,
       ⟨2025, 1, 1, 9, 10, 0⟩⟩
      (by decide) rfl rfl rfl rfl (by decide) (by decide)

/-! ## Claim C2: `get_next_stage` -/

/-- Claim C2 (confirmed): `get_next_stage` returns `Получено менеджером`
when `current_stage` is absent; otherwise it advances exactly one position
in the applicable (five-stage, or three-stage when `skip_assistant`)
sequence, and returns absent at the last element
(`Принято собственником` in both sequences) or for a non-member. -/
theorem get_next_stage_spec :
    (∀ skip, get_next_stage none skip = some STAGE_RECEIVED_BY_MANAGER) ∧
    (∀ skip i, i + 1 < (stage_sequence skip).length →
       get_next_stage ((stage_sequence skip).get? i) skip =
         (stage_sequence skip).get? (i + 1)) ∧
    (∀ skip, get_next_stage (some STAGE_ACCEPTED_BY_OWNER) skip = none) ∧
    (∀ skip s, s ∉ stage_sequence skip → get_next_stage (some s) skip = none) := by
  refine ⟨fun _ => rfl, ?_, ?_, ?_⟩
  · intro skip i h
    cases skip
    · have hub : i < 4 := by simp [stage_sequence] at h; omega
      interval_cases i <;> decide
    · have hub : i < 2 := by simp [stage_sequence] at h; omega
      interval_cases i <;> decide
  · intro skip
    cases skip <;> decide
  · intro skip s hs
    simp only [get_next_stage]
    simp
    intro hmem
    exact absurd hmem hs

theorem get_next_stage_spec_witness :
    get_next_stage ((stage_sequence false).get? 0) false =
      (stage_sequence false).get? 1 :=
  get_next_stage_spec.2.1 false 0 (by decide)

/-! ## Claim C3: `calculate_discrepancies` -/

theorem lastOr_some (a : Option ℚ) (v : ℚ) : lastOr a (some v) = some v := rfl

theorem lastOr_none (a : Option ℚ) : lastOr a none = a := rfl

theorem lastOr_none_left (l : Option ℚ) : lastOr none l = l := by
  cases l <;> rfl

theorem lastOr_absorb_none (a l : Option ℚ) :
    lastOr a (lastOr none l) = lastOr a l := by
  cases l <;> rfl

theorem lastOr_absorb_some (a : Option ℚ) (v : ℚ) (l : Option ℚ) :
    lastOr a (lastOr (some v) l) = lastOr (some v) l := by
  cases l <;> rfl

theorem lastAmountAt_cons (e : CashFlowEvent) (es : List CashFlowEvent)
    (stage : String) :
    lastAmountAt (e :: es) stage =
      lastOr (if e.stage == stage then some e.amount else none)
        (lastAmountAt es stage) := by
  cases h : lastAmountAt es stage <;> simp [lastAmountAt, lastOr, h]

theorem discFold_eq (events : List CashFlowEvent)
    (acc : Option ℚ × Option ℚ × Option ℚ × Option ℚ) :
    events.foldl discStep acc =
      (lastOr acc.1 (lastAmountAt events STAGE_TRANSFERRED_TO_ASSISTANT),
       lastOr acc.2.1 (lastAmountAt events STAGE_ACCEPTED_BY_ASSISTANT),
       lastOr acc.2.2.1 (lastAmountAt events STAGE_TRANSFERRED_TO_OWNER),
       lastOr acc.2.2.2 (lastAmountAt events STAGE_ACCEPTED_BY_OWNER)) := by
  have nTAAA : STAGE_TRANSFERRED_TO_ASSISTANT ≠ STAGE_ACCEPTED_BY_ASSISTANT :=
    by decide
  have nTATO : STAGE_TRANSFERRED_TO_ASSISTANT ≠ STAGE_TRANSFERRED_TO_OWNER :=
    by decide
  have nTAAO : STAGE_TRANSFERRED_TO_ASSISTANT ≠ STAGE_ACCEPTED_BY_OWNER :=
    by decide
  have nAATO : STAGE_ACCEPTED_BY_ASSISTANT ≠ STAGE_TRANSFERRED_TO_OWNER :=
    by decide
  have nAAAO : STAGE_ACCEPTED_BY_ASSISTANT ≠ STAGE_ACCEPTED_BY_OWNER :=
    by decide
  have nTOAO : STAGE_TRANSFERRED_TO_OWNER ≠ STAGE_ACCEPTED_BY_OWNER :=
    by decide
  induction events generalizing acc with
  | nil => simp [lastAmountAt, lastOr]
  | cons e es ih =>
    rw [List.foldl_cons, ih, lastAmountAt_cons, lastAmountAt_cons,
      lastAmountAt_cons, lastAmountAt_cons]
    by_cases h1 : e.stage = STAGE_TRANSFERRED_TO_ASSISTANT
    · simp [discStep, h1, nTAAA, nTATO, nTAAO, lastOr_absorb_none,
        lastOr_absorb_some]
    · by_cases h2 : e.stage = STAGE_ACCEPTED_BY_ASSISTANT
      · simp [discStep, h1, h2, nTAAA.symm, nAATO, nAAAO, lastOr_absorb_none,
          lastOr_absorb_some]
      · by_cases h3 : e.stage = STAGE_TRANSFERRED_TO_OWNER
        · simp [discStep, h1, h2, h3, nTATO.symm, nAATO.symm, nTOAO,
            lastOr_absorb_none, lastOr_absorb_some]
        · by_cases h4 : e.stage = STAGE_ACCEPTED_BY_OWNER
          · simp [discStep, h1, h2, h3, h4, nTAAO.symm, nAAAO.symm,
              nTOAO.symm, lastOr_absorb_none, lastOr_absorb_some]
          · simp [discStep, h1, h2, h3, h4, lastOr_absorb_none]

/-- Claim C3 (confirmed): `calculate_discrepancies` (on a deal's event
history in the ascending-timestamp order `get_cashflow_history` returns)
produces an `"assistant"` entry equal to the latest transferred-to-assistant
amount minus the latest accepted-by-assistant amount when both exist and
differ, and an `"owner"` entry likewise for the owner pair; equal or missing
amounts produce no entry.  In particular the events
`Transferred to assistant = 1000`, `Accepted by assistant = 900` yield
exactly `{"assistant": 100}`. -/
theorem calculate_discrepancies_spec :
    (∀ events : List CashFlowEvent,
       calculate_discrepancies events =
         pairEntry "assistant"
           (lastAmountAt events STAGE_TRANSFERRED_TO_ASSISTANT)
           (lastAmountAt events STAGE_ACCEPTED_BY_ASSISTANT) ++
         pairEntry "owner"
           (lastAmountAt events STAGE_TRANSFERRED_TO_OWNER)
           (lastAmountAt events STAGE_ACCEPTED_BY_OWNER)) ∧
    calculate_discrepancies
        [⟨"X", STAGE_TRANSFERRED_TO_ASSISTANT, "Менеджер", "u", 1000,
          ⟨2025, 1, 1, 10, 0, 0⟩⟩,
         ⟨"X", STAGE_ACCEPTED_BY_ASSISTANT, "Ассистент", "v", 900,
          ⟨2025, 1, 1, 11, 0, 0⟩⟩] =
      [("assistant", 100)] := by
  constructor
  · intro events
    unfold calculate_discrepancies
    rw [discFold_eq]
    simp only [lastOr_none_left]
    cases lastAmountAt events STAGE_TRANSFERRED_TO_ASSISTANT <;>
      cases lastAmountAt events STAGE_ACCEPTED_BY_ASSISTANT <;>
      cases lastAmountAt events STAGE_TRANSFERRED_TO_OWNER <;>
      cases lastAmountAt events STAGE_ACCEPTED_BY_OWNER <;>
      simp [pairEntry, sub_eq_zero] <;>
      split_ifs <;> simp_all [sub_eq_zero]
  · simp +decide [calculate_discrepancies, discStep,
      STAGE_TRANSFERRED_TO_ASSISTANT, STAGE_ACCEPTED_BY_ASSISTANT,
      STAGE_TRANSFERRED_TO_OWNER, STAGE_ACCEPTED_BY_OWNER]
    norm_num

/-! ## Claim C4: `get_deal_summary` status derivation -/

theorem summaryFold_status (events : List CashFlowEvent) (acc : DealSummary) :
    (events.foldl summaryStep acc).status = acc.status := by
  induction events generalizing acc with
  | nil => rfl
  | cons e es ih =>
    rw [List.foldl_cons, ih]
    unfold summaryStep
    split_ifs <;> rfl

/-- Claim C4 (confirmed): `get_deal_summary` derives `status` as `Завершено`
(Complete) exactly when an accepted-by-owner amount is present and the
discrepancy map is empty; `Расхождение` (Discrepancy) exactly when the
discrepancy map is non-empty, whether or not the owner accepted; and
`В процессе` (In progress) otherwise. -/
theorem get_deal_summary_status_spec :
    ∀ (deal_id : String) (events : List CashFlowEvent),
      ((get_deal_summary deal_id events).status = STATUS_COMPLETE ↔
         ((get_deal_summary deal_id events).accepted_by_owner.isSome ∧
          (get_deal_summary deal_id events).discrepancies = [])) ∧
      ((get_deal_summary deal_id events).status = STATUS_DISCREPANCY ↔
         (get_deal_summary deal_id events).discrepancies ≠ []) ∧
      ((get_deal_summary deal_id events).status = STATUS_IN_PROGRESS ↔
         (¬ (get_deal_summary deal_id events).accepted_by_owner.isSome ∧
          (get_deal_summary deal_id events).discrepancies = [])) := by
  intro deal_id events
  have c1 : STATUS_COMPLETE ≠ STATUS_DISCREPANCY := by decide
  have c2 : STATUS_IN_PROGRESS ≠ STATUS_COMPLETE := by decide
  have c3 : STATUS_IN_PROGRESS ≠ STATUS_DISCREPANCY := by decide
  have hstat : (events.foldl summaryStep
      ⟨deal_id, none, none, none, none, none, [],
       STATUS_IN_PROGRESS⟩).status = STATUS_IN_PROGRESS :=
    summaryFold_status events _
  unfold get_deal_summary
  by_cases h1 : (events.foldl summaryStep
      ⟨deal_id, none, none, none, none, none, [],
       STATUS_IN_PROGRESS⟩).accepted_by_owner.isSome <;>
    by_cases h2 : calculate_discrepancies events = [] <;>
    simp [h1, h2, hstat, c1, c2, c3, c1.symm, c2.symm, c3.symm]

/-! ## Claim C5: duplicate suppression is not surfaced by the write path -/

theorem findDealRow_spec (rows : List (List String)) (idx : Nat)
    (deal_id : String) :
    (findDealRow rows idx deal_id).isSome =
      rows.any (fun row => decide (COL_OWNER < row.length) &&
        (SheetsOps.build_deal_id row == deal_id)) := by
  induction rows generalizing idx with
  | nil => rfl
  | cons row rest ih =>
    by_cases h : COL_OWNER < row.length ∧ SheetsOps.build_deal_id row = deal_id
    · simp [findDealRow, h, h.1, h.2]
    · rw [List.any_cons]
      have hb : (decide (COL_OWNER < row.length) &&
          (SheetsOps.build_deal_id row == deal_id)) = false := by
        rw [Bool.and_eq_false_iff]
        by_cases h1 : COL_OWNER < row.length
        · right
          simp only [beq_eq_false_iff_ne, ne_eq]
          intro h2
          exact h ⟨h1, h2⟩
        · left
          simpa using h1
      rw [hb]
      simp only [Bool.false_or]
      rw [← ih (idx + 1)]
      simp [findDealRow, h]

/-- Claim C5 (counterexample): the claim "update_deal_status_with_role
returns failure whenever create_cashflow_event rejects the event as a
duplicate" is false.  On a sheet containing deal `O/L/1` and a log holding
a same-deal same-stage row 3 minutes old, `create_cashflow_event` rejects
the event as a duplicate, yet `update_deal_status_with_role` reports
success. -/
theorem update_status_counterexample :
    (update_deal_status_with_role
        [["h"], ["", "", "", "O", "L", "", "1"]]
        [cfHeader,
         [.s "O/L/1", .s "Передано ассистенту", .s "Менеджер", .s "u",
          .q 100, .s "2025-03-10 12:00:00"]]
        "O/L/1" "Передано ассистенту" 100 "u" "Менеджер"
        ⟨2025, 3, 10, 12, 3, 0⟩).ok = true ∧
    create_cashflow_event
        [cfHeader,
         [.s "O/L/1", .s "Передано ассистенту", .s "Менеджер", .s "u",
          .q 100, .s "2025-03-10 12:00:00"]]
        ⟨"O/L/1", "Передано ассистенту", "Менеджер", "u", 100,
         ⟨2025, 3, 10, 12, 3, 0⟩⟩ =
      ([cfHeader,
        [.s "O/L/1", .s "Передано ассистенту", .s "Менеджер", .s "u",
         .q 100, .s "2025-03-10 12:00:00"]], false) := by
  exact ⟨rfl, rfl⟩

/-- Claim C5 (amended): the write path does *not* surface the duplicate
suppression.  `update_deal_status_with_role` discards
`create_cashflow_event`'s result: it reports success exactly when a row
matching the deal id exists in the main sheet, even when the audit-log
append was suppressed as a duplicate (in which case the log is left
unchanged while success is still reported); `process_stage_transition`
returns the same result. -/
theorem update_deal_status_write_path :
    ∀ (main : List (List String)) (log : List (List Cell))
      (deal_id stage : String) (amount : ℚ) (user role : String)
      (now : PyDateTime) (from_stage : String),
      ((update_deal_status_with_role main log deal_id stage amount user role
          now).ok =
        main.tail.any (fun row => decide (COL_OWNER < row.length) &&
          (SheetsOps.build_deal_id row == deal_id))) ∧
      ((update_deal_status_with_role main log deal_id stage amount user role
          now).log =
        if main.tail.any (fun row => decide (COL_OWNER < row.length) &&
            (SheetsOps.build_deal_id row == deal_id)) then
          (create_cashflow_event log
            ⟨deal_id, stage, role, user, amount, now⟩).1
        else log) ∧
      process_stage_transition main log deal_id from_stage stage amount user
          role now =
        update_deal_status_with_role main log deal_id stage amount user role
          now := by
  intro main log deal_id stage amount user role now from_stage
  have hfind := findDealRow_spec main.tail 2 deal_id
  refine ⟨?_, ?_, rfl⟩
  · rw [← hfind]
    unfold update_deal_status_with_role
    cases h : findDealRow main.tail 2 deal_id with
    | none => simp [h]
    | some p => simp [h]
  · rw [← hfind]
    unfold update_deal_status_with_role
    cases h : findDealRow main.tail 2 deal_id with
    | none => simp [h]
    | some p => simp [h]

/-! ## Claim C7: `validate_amount_string` -/

/-- Claim C7 (confirmed): `validate_amount_string` strips surrounding
whitespace, turns every comma into a dot, removes spaces, parses the result
as a number (`pyFloat`) and returns it exactly when strictly positive; any
parse failure or non-positive result is rejected.  In particular
`"1 234,50"` yields `1234.5` while `"-5"` and `"abc"` are rejected. -/
theorem validate_amount_string_spec :
    validate_amount_string "1 234,50" = some (2469 / 2) ∧
    validate_amount_string "-5" = none ∧
    validate_amount_string "abc" = none ∧
    (∀ s, validate_amount_string s =
       match pyFloat (pyReplace1 (pyReplace1 (pyStrip s) ',' ".") ' ' "") with
       | some amount => if 0 < amount then some amount else none
       | none => none) ∧
    (∀ s a, validate_amount_string s = some a → 0 < a) := by
  refine ⟨?_, ?_, ?_, fun s => rfl, ?_⟩
  · simp +decide [validate_amount_string, pyStrip, stripWS, pyReplace1,
      replaceChar, pyFloat, usOK, takeSign, splitOnExp, splitOnDot, mantVal,
      digitsVal, dVal]
    norm_num
  · simp +decide [validate_amount_string, pyStrip, stripWS, pyReplace1,
      replaceChar, pyFloat, usOK, takeSign, splitOnExp, splitOnDot, mantVal,
      digitsVal, dVal] <;> norm_num
  · simp +decide [validate_amount_string, pyStrip, stripWS, pyReplace1,
      replaceChar, pyFloat, usOK, takeSign, splitOnExp, splitOnDot]
  · intro s a h
    unfold validate_amount_string at h
    split at h
    · split_ifs at h with hp
      · cases h
        exact hp
    · cases h

theorem validate_amount_string_spec_witness : 0 < (7 : ℚ) :=
  validate_amount_string_spec.2.2.2.2 "7" 7 (by
    simp +decide [validate_amount_string, pyStrip, stripWS, pyReplace1,
      replaceChar, pyFloat, usOK, takeSign, splitOnExp, splitOnDot, mantVal,
      digitsVal, dVal] <;> norm_num)

/-! ## Claim C8: the two deal-row parsers agree -/

/-- Claim C8 (confirmed): the deal-row parser duplicated in the cache
module (`utils/cache.py`) is extensionally equal to the one in the
spreadsheet-operations module (`sheets/operations.py`): on every row and
row index both return the same `Deal` (or both `none`). -/
theorem parse_deal_from_row_modules_agree :
    ∀ (row : List String) (row_index : Nat),
      SheetsOps.parse_deal_from_row row row_index =
        UtilsCache.parse_deal_from_row row row_index :=
  fun _ _ => rfl

/-! ## Claim C9: proposed next stage is always confirmable -/

/-- Claim C9 (confirmed): whenever `get_next_stage_for_role` proposes a
stage to a user, `can_confirm_stage` authorizes that same user to confirm
it. -/
theorem next_stage_for_role_confirmable :
    ∀ (u : UserRole) (current_stage : Option String) (s : String),
      get_next_stage_for_role u current_stage = some s →
      can_confirm_stage u s = true := by
  intro u current_stage s h
  unfold get_next_stage_for_role at h
  by_cases hm : u.is_manager = true
  · rw [if_pos hm] at h
    cases current_stage with
    | none =>
      cases h
      simp [can_confirm_stage, hm]
    | some c =>
      dsimp only at h
      by_cases hc : c == STAGE_RECEIVED_BY_MANAGER
      · rw [if_pos hc] at h
        cases h
        simp +decide [can_confirm_stage, hm, STAGE_TRANSFERRED_TO_ASSISTANT,
          STAGE_RECEIVED_BY_MANAGER]
      · rw [if_neg hc] at h
        cases h
  · rw [if_neg hm] at h
    by_cases ha : u.is_assistant = true
    · rw [if_pos ha] at h
      cases current_stage with
      | none => cases h
      | some c =>
        dsimp only at h
        by_cases hc : c == STAGE_TRANSFERRED_TO_ASSISTANT
        · rw [if_pos hc] at h
          cases h
          simp +decide [can_confirm_stage, ha, STAGE_ACCEPTED_BY_ASSISTANT,
            STAGE_RECEIVED_BY_MANAGER, STAGE_TRANSFERRED_TO_ASSISTANT]
        · rw [if_neg hc] at h
          by_cases hc2 : c == STAGE_ACCEPTED_BY_ASSISTANT
          · rw [if_pos hc2] at h
            cases h
            simp +decide [can_confirm_stage, ha, STAGE_TRANSFERRED_TO_OWNER,
              STAGE_RECEIVED_BY_MANAGER, STAGE_TRANSFERRED_TO_ASSISTANT,
              STAGE_ACCEPTED_BY_ASSISTANT]
          · rw [if_neg hc2] at h
            cases h
    · rw [if_neg ha] at h
      by_cases ho : u.is_owner = true
      · rw [if_pos ho] at h
        cases current_stage with
        | none => cases h
        | some c =>
          dsimp only at h
          by_cases hc : c == STAGE_TRANSFERRED_TO_OWNER
          · rw [if_pos hc] at h
            cases h
            simp +decide [can_confirm_stage, ho, STAGE_ACCEPTED_BY_OWNER,
              STAGE_RECEIVED_BY_MANAGER, STAGE_TRANSFERRED_TO_ASSISTANT,
              STAGE_ACCEPTED_BY_ASSISTANT, STAGE_TRANSFERRED_TO_OWNER]
          · rw [if_neg hc] at h
            cases h
      · rw [if_neg ho] at h
        cases h

theorem next_stage_for_role_confirmable_witness :
    can_confirm_stage ⟨"42", none, "Менеджер", none⟩
      "Получено менеджером" = true :=
  next_stage_for_role_confirmable ⟨"42", none, "Менеджер", none⟩ none
    "Получено менеджером" rfl

/-! ## Claim C6: `get_debt_summary` -/

theorem get_debt_summary_cons (hdr : List String)
    (rows : List (List String)) :
    get_debt_summary (hdr :: rows) = rows.foldl debtStep [] := by
  cases rows <;> simp [get_debt_summary]

theorem debtStep_skip (row : List String) (h : debtSkip row = true)
    (acc : List (String × DebtInfo)) : debtStep acc row = acc := by
  unfold debtSkip at h
  unfold debtStep
  by_cases h1 : isYes (row.getD COL_ALL_CASHLESS "") = true
  · rw [if_pos h1]
  · rw [if_neg h1]
    by_cases h2 : (["не получали", "не получали", ""].contains
        (pyLower (pyStrip (row.getD COL_WHO_RECEIVED_CASH "")))) = true
    · rw [if_pos h2]
    · rw [if_neg h2]
      by_cases h3 : (isYes (row.getD COL_TRANSFERRED_TO_OWNER "") &&
          isYes (row.getD COL_OWNER_ACCEPTED "")) = true
      · rw [if_pos h3]
      · rw [if_neg h3]
        simp only [Bool.not_eq_true] at h1 h2 h3
        simp only [h1, h2, h3, Bool.false_or, Bool.or_false,
          Bool.not_eq_true'] at h
        rw [if_neg (of_decide_eq_false h)]

theorem debtStep_incl (row : List String) (h : debtSkip row = false)
    (acc : List (String × DebtInfo)) :
    debtStep acc row =
      updateAssoc acc (debtKey row) (debtAmount row)
        (SheetsOps.build_deal_id row)
        (pyStrip (row.getD COL_WHO_RECEIVED_CASH "")) := by
  unfold debtSkip at h
  simp only [Bool.or_eq_false_iff] at h
  obtain ⟨⟨⟨h1, h2⟩, h3⟩, h4⟩ := h
  unfold debtStep
  rw [if_neg (by simp only [h1]; decide), if_neg (by simp only [h2]; decide),
    if_neg (by simp only [h3]; decide)]
  rw [if_pos (of_decide_eq_true (by simpa using h4))]
  rfl

theorem findVal_updateAssoc (acc : List (String × DebtInfo)) (key : String)
    (amount : ℚ) (deal_id who : String) :
    findVal (updateAssoc acc key amount deal_id who) key =
      some ⟨((findVal acc key).getD ⟨0, 0, []⟩).total_debt + amount,
            ((findVal acc key).getD ⟨0, 0, []⟩).deals_count + 1,
            ((findVal acc key).getD ⟨0, 0, []⟩).deals ++
              [⟨deal_id, amount, who⟩]⟩ := by
  induction acc with
  | nil =>
    simp [updateAssoc, findVal, List.find?]
  | cons p acc ih =>
    by_cases hp : (p.1 == key) = true
    · unfold updateAssoc
      rw [if_pos (by simp [List.any_cons, hp])]
      unfold findVal
      rw [List.map_cons, if_pos hp]
      rw [List.find?_cons_of_pos _ (by simpa using hp),
        List.find?_cons_of_pos _ (by simpa using hp)]
      simp
    · rw [Bool.not_eq_true] at hp
      have hstep : updateAssoc (p :: acc) key amount deal_id who =
          p :: updateAssoc acc key amount deal_id who := by
        unfold updateAssoc
        rw [List.any_cons]
        simp only [hp, Bool.false_or]
        by_cases hany : acc.any (fun q => q.1 == key) = true
        · rw [if_pos hany, if_pos hany, List.map_cons,
            if_neg (by simp [hp])]
        · rw [if_neg hany, if_neg hany]
          simp
      rw [hstep]
      unfold findVal at ih ⊢
      rw [List.find?_cons_of_neg _ (by simpa using hp),
        List.find?_cons_of_neg _ (by simpa using hp)]
      exact ih

/-- Claim C6 (counterexample): the claim's fallback clause — filing the
record under `"Неизвестно"` (Unknown) when the manager's introduced-name
cell is blank — is false.  A row with a blank name cell that passes every
filter is filed under the empty-string key, and no `"Неизвестно"` entry is
produced. -/
theorem get_debt_summary_counterexample :
    get_debt_summary
        [["h"],
         ["", "", "", "O", "L", "", "1", "", "", "", "", "Вася", "100"]] =
      [("", ⟨100, 1, [⟨"O/L/1", 100, "Вася"⟩]⟩)] ∧
    findVal
        (get_debt_summary
          [["h"],
           ["", "", "", "O", "L", "", "1", "", "", "", "", "Вася", "100"]])
        "Неизвестно" = none := by
  have h100 : parseAmountCell "100" = some 100 := by
    simp +decide [parseAmountCell, pyStrip, stripWS, pyReplace1, replaceChar,
      pyFloat, usOK, takeSign, splitOnExp, splitOnDot, mantVal, digitsVal,
      dVal] <;> norm_num
  have hsum : get_debt_summary
      [["h"],
       ["", "", "", "O", "L", "", "1", "", "", "", "", "Вася", "100"]] =
      [("", ⟨100, 1, [⟨"O/L/1", 100, "Вася"⟩]⟩)] := by
    rw [get_debt_summary_cons]
    simp only [List.foldl_cons, List.foldl_nil]
    unfold debtStep
    rw [if_neg (by decide)]
    rw [if_neg (by decide)]
    rw [if_neg (by decide)]
    simp only [List.getD, COL_AMOUNT_RECEIVED, COL_NAME,
      COL_WHO_RECEIVED_CASH, List.get?, h100, Option.getD_some]
    rw [if_pos (by norm_num)]
    simp +decide [updateAssoc, SheetsOps.build_deal_id, pyStrip, stripWS,
      COL_OWNER, COL_LOCATION, COL_NUMBER]
  exact ⟨hsum, by rw [hsum]; rfl⟩

/-- Claim C6 (amended): `get_debt_summary` scans the data rows and excludes
fully-cashless rows, rows whose who-received-cash field is empty or the
"не получали" token, rows already both transferred-to-owner and
owner-accepted, and rows without a positive parsed received amount; every
remaining row adds its amount to its manager's `total_debt`, increments
that manager's `deals_count` and appends a `{deal_id, amount,
who_received}` record — filed under the trimmed introduced-name cell value
as-is, even when blank (the `"Неизвестно"` fallback applies only to rows
too short to contain the name column, which cannot pass the
received-cash filter). -/
theorem get_debt_summary_spec :
    (∀ (hdr row : List String) (pre post : List (List String)),
       debtSkip row = true →
       get_debt_summary (hdr :: (pre ++ row :: post)) =
         get_debt_summary (hdr :: (pre ++ post))) ∧
    (∀ (hdr row : List String) (pre : List (List String)),
       debtSkip row = false →
       get_debt_summary (hdr :: (pre ++ [row])) =
         updateAssoc (get_debt_summary (hdr :: pre)) (debtKey row)
           (debtAmount row) (SheetsOps.build_deal_id row)
           (pyStrip (row.getD COL_WHO_RECEIVED_CASH ""))) ∧
    (∀ (acc : List (String × DebtInfo)) (key : String) (amount : ℚ)
       (deal_id who : String),
       findVal (updateAssoc acc key amount deal_id who) key =
         some ⟨((findVal acc key).getD ⟨0, 0, []⟩).total_debt + amount,
               ((findVal acc key).getD ⟨0, 0, []⟩).deals_count + 1,
               ((findVal acc key).getD ⟨0, 0, []⟩).deals ++
                 [⟨deal_id, amount, who⟩]⟩) := by
  refine ⟨?_, ?_, findVal_updateAssoc⟩
  · intro hdr row pre post h
    rw [get_debt_summary_cons, get_debt_summary_cons, List.foldl_append,
      List.foldl_append, List.foldl_cons, debtStep_skip row h]
  · intro hdr row pre h
    rw [get_debt_summary_cons, get_debt_summary_cons, List.foldl_append,
      List.foldl_cons, List.foldl_nil, debtStep_incl row h]

theorem get_debt_summary_spec_witness :
    (get_debt_summary
        [["h"],
         ["", "", "", "", "", "", "", "", "", "", "да"],
         ["", "Петя", "", "O", "L", "", "1", "", "", "", "", "Вася", "100"]] =
      get_debt_summary
        [["h"],
         ["", "Петя", "", "O", "L", "", "1", "", "", "", "", "Вася", "100"]]) ∧
    (get_debt_summary
        [["h"],
         ["", "Петя", "", "O", "L", "", "1", "", "", "", "", "Вася", "100"]] =
      updateAssoc (get_debt_summary [["h"]]) "Петя" 100 "O/L/1" "Вася") ∧
    findVal (updateAssoc [] "Петя" 100 "O/L/1" "Вася") "Петя" =
      some ⟨0 + 100, 0 + 1, [] ++ [⟨"O/L/1", 100, "Вася"⟩]⟩ := by
  have hskip : debtSkip ["", "", "", "", "", "", "", "", "", "", "да"] =
      true := by decide
  have h100 : parseAmountCell "100" = some 100 := by
    simp +decide [parseAmountCell, pyStrip, stripWS, pyReplace1, replaceChar,
      pyFloat, usOK, takeSign, splitOnExp, splitOnDot, mantVal, digitsVal,
      dVal] <;> norm_num
  have hincl : debtSkip
      ["", "Петя", "", "O", "L", "", "1", "", "", "", "", "Вася", "100"] =
      false := by
    unfold debtSkip
    simp +decide [h100, isYes, pyStrip, stripWS, pyLower, pyLowerChar,
      COL_ALL_CASHLESS, COL_WHO_RECEIVED_CASH, COL_TRANSFERRED_TO_OWNER,
      COL_OWNER_ACCEPTED, COL_AMOUNT_RECEIVED] <;> norm_num
  refine ⟨?_, ?_, ?_⟩
  · exact get_debt_summary_spec.1 ["h"] _ [] [_] hskip
  · have h := get_debt_summary_spec.2.1 ["h"]
      ["", "Петя", "", "O", "L", "", "1", "", "", "", "", "Вася", "100"] []
      hincl
    simp only [List.nil_append] at h
    rw [h]
    have hkey : debtKey
        ["", "Петя", "", "O", "L", "", "1", "", "", "", "", "Вася", "100"] =
        "Петя" := by decide
    have hamt : debtAmount
        ["", "Петя", "", "O", "L", "", "1", "", "", "", "", "Вася", "100"] =
        100 := by
      unfold debtAmount
      simp +decide [h100, COL_AMOUNT_RECEIVED]
    rw [hkey, hamt]
    rfl
  · have h := get_debt_summary_spec.2.2 [] "Петя" 100 "O/L/1" "Вася"
    rw [h]
    rfl

end CashDeals
